import Mathlib

/-!
Shallow embedding of the row-selector normalization engine of
`src/datatable/dt.py` (`DataTable._rows_selector`, lines 282-384, and the
`rows` handling of `DataTable.__call__`).

The helper functions `normalize_slice` and `normalize_range` are imported by
`dt.py` from `datatable.utils.misc`, whose source is not part of this
repository; they are modelled from the spec (section 4.1) and from the
docstring of `DataTable.__call__` (lines 136-147 of `dt.py`).
-/

namespace DatatableRows

/-- A bound of a Python slice object: `None`, an `int`, or some other value
that is neither (`isinstance(x, int)` is false). -/
inductive Bound where
  | none
  | int (i : Int)
  | nonint
  deriving DecidableEq

/-- An element of a collection row selector, as classified by the loop at
lines 308-350 of `dt.py`: an `int`, a `slice`, a `range`, or anything else. -/
inductive Elem where
  | int (i : Int)
  | slice (start stop step : Bound)
  | range (start stop step : Int)
  | other
  deriving DecidableEq

/-- A raw row selector, as classified by `DataTable._rows_selector`.
A `maskTable` records the three attributes of the argument `DataTable` that
the code inspects (`ncols`, `types[0]`, `nrows`).  A `callable` records the
selector that the Python function returns when invoked.  `none` is the
default value of the `rows` parameter of `DataTable.__call__`. -/
inductive Selector where
  | ellipsis
  | none
  | int (i : Int)
  | slice (start stop step : Bound)
  | range (start stop step : Int)
  | list (elems : List Elem)
  | generator (elems : List Elem)
  | maskTable (ncols : Nat) (col0type : String) (mrows : Nat)
  | callable (result : Selector)
  | expr
  | other
  deriving DecidableEq

/-- The normalized output: the engine constructors `rowmapping_from_array`,
`rowmapping_from_slice`, `rowmapping_from_slicelist`, `rowmapping_from_column`
(a mask reference, recording the mask table's attributes) and the opaque
result of `select_by_expression`. -/
inductive RowMapping where
  | array (indices : List Int)
  | slice (start count step : Int)
  | sliceList (bases counts steps : List Int)
  | mask (ncols : Nat) (col0type : String) (mrows : Nat)
  | exprResult
  deriving DecidableEq

/-- The two error classes of `datatable.utils.typechecks` raised by
`_rows_selector`: `ValueError`-class and `TypeError`-class. -/
inductive ErrKind where
  | valueError
  | typeError
  deriving DecidableEq

/-- The errors raised by `_rows_selector`.  Each constructor carries exactly
the values interpolated into the corresponding Python message. -/
inductive DtError where
  | rowOutOfRange (nrows : Nat) (elem : Int)
  | zeroStep (elem : Elem)
  | notIntegerValued (elem : Elem)
  | invalidRange (elem : Elem) (nrows : Nat)
  | badGenerated (elem : Elem) (pos : Nat)
  | badElement (elem : Elem) (pos : Nat)
  | maskNcols (ncols : Nat) (col0type : String) (mrows : Nat)
  | maskNotBool (col0type : String)
  | maskNrows (mrows nrows : Nat)
  | nestedUnexpected (arg : Selector)
  | outerUnexpected (arg : Selector)
  deriving DecidableEq

/-- The exception class each error is raised with in `dt.py`:
`ValueError` at lines 311, 319, 322, 326, 360, 369; `TypeError` at lines
346, 349, 364, 381, 384. -/
def DtError.kind : DtError → ErrKind
  | rowOutOfRange _ _ => .valueError
  | zeroStep _ => .valueError
  | notIntegerValued _ => .valueError
  | invalidRange _ _ => .valueError
  | badGenerated _ _ => .typeError
  | badElement _ _ => .typeError
  | maskNcols _ _ _ => .valueError
  | maskNotBool _ => .typeError
  | maskNrows _ _ => .valueError
  | nestedUnexpected _ => .typeError
  | outerUnexpected _ => .typeError

/-- The test `elem.step == 0` of line 318 of `dt.py`, on a slice bound:
`None == 0` is false, and a non-int bound that is a non-whole number is
numerically different from `0`. -/
def stepIsZero : Bound → Bool
  | .int 0 => true
  | _ => false

/-- The test `x is None or isinstance(x, int)` of lines 320-321 of `dt.py`. -/
def boundIsIntOrNone : Bound → Bool
  | .nonint => false
  | _ => true

/-- View an integer-or-None bound as an optional integer (only used after
`boundIsIntOrNone` has been checked). -/
def Bound.toOptionInt : Bound → Option Int
  | .none => Option.none
  | .int i => some i
  | .nonint => Option.none

/-- Number of elements of the arithmetic progression from `start` (included)
towards `stop` (excluded) with stride `step`: the count of a Python `range`
or of an already clamped slice. -/
def progCount (start stop step : Int) : Int :=
  if 0 < step then max 0 ((stop - start + step - 1).fdiv step)
  else max 0 ((stop - start + step + 1).fdiv step)

/-- Modelled from the spec: missing from this repository is
`datatable.utils.misc.normalize_slice`.  Per section 4.1 it follows the host
language's slice-clamping convention: a negative bound counts from the end,
out-of-bounds values are clamped into the valid region without error, the
defaults depend on the sign of the step, and the count is never negative. -/
def clampBound (v n step : Int) : Int :=
  let w := if v < 0 then v + n else v
  if w < 0 then (if step < 0 then -1 else 0)
  else if n ≤ w then (if step < 0 then n - 1 else n)
  else w

/-- Modelled from the spec: missing from this repository is
`datatable.utils.misc.normalize_slice`.  It returns the canonical
`(start, count, step)` triple of a slice over `n` rows; a slice is never
invalid — at worst it selects zero rows. -/
def normalize_slice (start stop step : Option Int) (n : Nat) : Int × Int × Int :=
  let st := step.getD 1
  let a := match start with
    | Option.none => if st < 0 then (n : Int) - 1 else 0
    | some v => clampBound v n st
  let b := match stop with
    | Option.none => if st < 0 then -1 else (n : Int)
    | some v => clampBound v n st
  (a, progCount a b st, st)

/-- Modelled from the spec: missing from this repository is
`datatable.utils.misc.normalize_range`.  The count of a Python `range`
object (its step is never zero). -/
def rangeCount (start stop step : Int) : Nat :=
  (progCount start stop step).toNat

/-- Modelled from the spec: the explicit index list a Python `range` object
expands to. -/
def rangeList (start stop step : Int) : List Int :=
  (List.range (rangeCount start stop step)).map fun k => start + k * step

/-- Modelled from the spec: missing from this repository is
`datatable.utils.misc.normalize_range`.  Per section 4.1 a range behaves as
if materialized into an explicit index list and validated element-by-element;
negative values are not reinterpreted end-relatively, and if any produced
index falls outside the valid region the whole range is invalid (`None`),
not clamped.  This matches the docstring of `DataTable.__call__` (lines
140-147 of `dt.py`). -/
def normalize_range (start stop step : Int) (n : Nat) : Option (Int × Int × Int) :=
  if ∀ x ∈ rangeList start stop step, 0 ≤ x ∧ x < (n : Int) then
    some (start, (rangeCount start stop step : Int), step)
  else Option.none

/-- The three parallel accumulators of the collection loop (lines 305-307 of
`dt.py`). -/
structure Acc where
  bases : List Int
  counts : List Int
  strides : List Int
  deriving DecidableEq

/-- The empty accumulators the loop starts from. -/
def Acc.init : Acc := ⟨[], [], []⟩

/-- Lines 338-343 of `dt.py`: when a canonical triple with `count > 1`
arrives, first backfill `counts` and `strides` with `1` for every prior
scalar entry of `bases`, then append the triple component-wise. -/
def Acc.pushTriple (acc : Acc) (start count step : Int) : Acc :=
  if acc.counts.length < acc.bases.length then
    ⟨acc.bases ++ [start],
     (acc.counts ++ List.replicate (acc.bases.length - acc.counts.length) 1) ++ [count],
     (acc.strides ++ List.replicate (acc.bases.length - acc.strides.length) 1) ++ [step]⟩
  else
    ⟨acc.bases ++ [start], acc.counts ++ [count], acc.strides ++ [step]⟩

/-- Lines 331-343 of `dt.py`: dispatch on the canonical count — a zero count
contributes nothing, a count of one appends a scalar, a larger count goes
through the backfilling append. -/
def applyTriple (acc : Acc) (t : Int × Int × Int) : Acc :=
  if t.2.1 = 0 then acc
  else if t.2.1 = 1 then { acc with bases := acc.bases ++ [t.1] }
  else acc.pushTriple t.1 t.2.1 t.2.2

/-- One iteration of the loop at lines 308-350 of `dt.py`: classify and
validate element `e` at position `i` and update the accumulators, or fail. -/
def processElem (nrows : Nat) (fromGen : Bool) (i : Nat) (acc : Acc) (e : Elem) :
    Except DtError Acc :=
  match e with
  | .int v =>
    if v < -(nrows : Int) ∨ (nrows : Int) ≤ v then
      .error (.rowOutOfRange nrows v)
    else
      .ok { acc with bases := acc.bases ++ [if v < 0 then v + nrows else v] }
  | .slice a b c =>
    if stepIsZero c then .error (.zeroStep e)
    else if !(boundIsIntOrNone a && boundIsIntOrNone b && boundIsIntOrNone c) then
      .error (.notIntegerValued e)
    else
      .ok (applyTriple acc (normalize_slice a.toOptionInt b.toOptionInt c.toOptionInt nrows))
  | .range a b c =>
    if c = 0 then .error (.zeroStep e)
    else
      match normalize_range a b c nrows with
      | some t => .ok (applyTriple acc t)
      | Option.none => .error (.invalidRange e nrows)
  | .other =>
    if fromGen then .error (.badGenerated e i) else .error (.badElement e i)

/-- The whole loop: process the elements left to right starting at position
`i`, failing fast on the first invalid element. -/
def processElems (nrows : Nat) (fromGen : Bool) : List Elem → Nat → Acc → Except DtError Acc
  | [], _, acc => .ok acc
  | e :: rest, i, acc =>
    match processElem nrows fromGen i acc e with
    | .ok acc2 => processElems nrows fromGen rest (i + 1) acc2
    | .error err => .error err

/-- Lines 351-356 of `dt.py`: the three-way compaction decision.  The
`headD` defaults are never reached: the slice branch requires non-empty
`counts` and a singleton `bases`, and `strides` is always as long as
`counts`. -/
def finishAcc (acc : Acc) : RowMapping :=
  if acc.counts.isEmpty then .array acc.bases
  else if acc.bases.length = 1 then
    .slice (acc.bases.headD 0) (acc.counts.headD 0) (acc.strides.headD 0)
  else .sliceList acc.bases acc.counts acc.strides

/-- Lines 304-356 of `dt.py`: normalize a materialized collection selector. -/
def collectionSelector (nrows : Nat) (fromGen : Bool) (es : List Elem) :
    Except DtError RowMapping :=
  (processElems nrows fromGen es 0 Acc.init).map finishAcc

/-- `DataTable._rows_selector` (lines 282-384 of `dt.py`): normalize the
selector `arg` against a table of `nrows` rows.  A scalar int, slice or
range is wrapped into a one-element collection; a generator is materialized
first and flagged; a callable is invoked (its recorded result) and the
result re-normalized with `nested = true`. -/
def rows_selector (nrows : Nat) : Selector → Bool → Except DtError RowMapping
  | .ellipsis, _ => .ok (.slice 0 nrows 1)
  | .int i, _ => collectionSelector nrows false [.int i]
  | .slice a b c, _ => collectionSelector nrows false [.slice a b c]
  | .range a b c, _ => collectionSelector nrows false [.range a b c]
  | .list es, _ => collectionSelector nrows false es
  | .generator es, _ => collectionSelector nrows true es
  | .maskTable ncols t mrows, _ =>
    if ncols ≠ 1 then .error (.maskNcols ncols t mrows)
    else if t ≠ "bool" then .error (.maskNotBool t)
    else if mrows ≠ nrows then .error (.maskNrows mrows nrows)
    else .ok (.mask ncols t mrows)
  | .callable res, nested =>
    if nested then .error (.nestedUnexpected (.callable res))
    else rows_selector nrows res true
  | .expr, _ => .ok .exprResult
  | .none, nested =>
    if nested then .error (.nestedUnexpected .none) else .error (.outerUnexpected .none)
  | .other, nested =>
    if nested then .error (.nestedUnexpected .other) else .error (.outerUnexpected .other)

/-- The default value of the `rows` parameter of `DataTable.__call__`
(line 123 of `dt.py`) is `None`. -/
def defaultRows : Selector := .none

/-! Helper lemmas: `counts` and `strides` are appended and backfilled in
lockstep, so their lengths agree throughout the loop. -/

theorem pushTriple_lockstep (acc : Acc) (start count step : Int)
    (h : acc.counts.length = acc.strides.length) :
    (acc.pushTriple start count step).counts.length
      = (acc.pushTriple start count step).strides.length := by
  unfold Acc.pushTriple
  split <;>
    simp only [List.length_append, List.length_replicate, List.length_cons,
      List.length_nil] <;>
    omega

theorem applyTriple_lockstep (acc : Acc) (t : Int × Int × Int)
    (h : acc.counts.length = acc.strides.length) :
    (applyTriple acc t).counts.length = (applyTriple acc t).strides.length := by
  unfold applyTriple
  split
  · exact h
  · split
    · exact h
    · exact pushTriple_lockstep acc t.1 t.2.1 t.2.2 h

theorem processElem_lockstep (nrows : Nat) (fromGen : Bool) (i : Nat) (acc acc2 : Acc)
    (e : Elem) (hinv : acc.counts.length = acc.strides.length)
    (h : processElem nrows fromGen i acc e = .ok acc2) :
    acc2.counts.length = acc2.strides.length := by
  cases e with
  | int v =>
    simp only [processElem] at h
    split at h
    · simp at h
    · simp only [Except.ok.injEq] at h
      subst h
      exact hinv
  | slice a b c =>
    simp only [processElem] at h
    split at h
    · simp at h
    · split at h
      · simp at h
      · simp only [Except.ok.injEq] at h
        subst h
        exact applyTriple_lockstep acc _ hinv
  | range a b c =>
    simp only [processElem] at h
    split at h
    · simp at h
    · split at h
      · rename_i t ht
        simp only [Except.ok.injEq] at h
        subst h
        exact applyTriple_lockstep acc t hinv
      · simp at h
  | other =>
    simp only [processElem] at h
    split at h <;> simp at h

theorem processElems_lockstep (nrows : Nat) (fromGen : Bool) :
    ∀ (es : List Elem) (i : Nat) (acc acc2 : Acc),
      acc.counts.length = acc.strides.length →
      processElems nrows fromGen es i acc = .ok acc2 →
      acc2.counts.length = acc2.strides.length := by
  intro es
  induction es with
  | nil =>
    intro i acc acc2 hinv h
    simp only [processElems, Except.ok.injEq] at h
    subst h
    exact hinv
  | cons e rest ih =>
    intro i acc acc2 hinv h
    simp only [processElems] at h
    cases hpe : processElem nrows fromGen i acc e with
    | ok acc1 =>
      rw [hpe] at h
      exact ih (i + 1) acc1 acc2 (processElem_lockstep nrows fromGen i acc acc1 e hinv hpe) h
    | error err =>
      rw [hpe] at h
      simp at h

theorem processElems_singleton (nrows : Nat) (fromGen : Bool) (e : Elem) (i : Nat) (acc : Acc) :
    processElems nrows fromGen [e] i acc = processElem nrows fromGen i acc e := by
  cases hpe : processElem nrows fromGen i acc e with
  | ok acc2 => simp only [processElems, hpe]
  | error err => simp only [processElems, hpe]

/-! Theorems for the claims. -/

/-- Claim C1: for every finished accumulator triple produced from a valid
collection selector, the compaction at lines 351-356 of `dt.py` emits exactly
one of three shapes: `Array bases` when `counts` is empty; a single `Slice`
of the head triple when `bases` has exactly one entry; `SliceList` otherwise.
It never emits an `Array` when `counts` is non-empty and never a `SliceList`
when `bases` is a singleton. -/
theorem compaction_three_way (nrows : Nat) (fromGen : Bool) (es : List Elem) (acc : Acc)
    (h : processElems nrows fromGen es 0 Acc.init = .ok acc) :
    (acc.counts = [] → finishAcc acc = .array acc.bases) ∧
    (acc.counts ≠ [] → ∀ b, acc.bases = [b] →
      ∃ c s, acc.counts.head? = some c ∧ acc.strides.head? = some s ∧
        finishAcc acc = .slice b c s) ∧
    (acc.counts ≠ [] → acc.bases.length ≠ 1 →
      finishAcc acc = .sliceList acc.bases acc.counts acc.strides) ∧
    (acc.counts ≠ [] → ∀ ixs, finishAcc acc ≠ .array ixs) ∧
    (acc.bases.length = 1 → ∀ bs cs ss, finishAcc acc ≠ .sliceList bs cs ss) := by
  have hls : acc.counts.length = acc.strides.length :=
    processElems_lockstep nrows fromGen es 0 Acc.init acc rfl h
  refine ⟨?_, ?_, ?_, ?_, ?_⟩
  · intro hc
    simp [finishAcc, hc]
  · intro hc b hb
    obtain ⟨c, cs, hcs⟩ := List.exists_cons_of_ne_nil hc
    have hsne : acc.strides ≠ [] := by
      intro hs
      rw [hcs, hs] at hls
      simp at hls
    obtain ⟨s, ss, hss⟩ := List.exists_cons_of_ne_nil hsne
    refine ⟨c, s, by simp [hcs], by simp [hss], ?_⟩
    simp [finishAcc, hcs, hss, hb]
  · intro hc hb
    simp only [finishAcc]
    rw [if_neg (by simp [hc]), if_neg hb]
  · intro hc ixs
    simp only [finishAcc]
    rw [if_neg (by simp [hc])]
    split <;> simp
  · intro hb bs cs ss
    simp only [finishAcc]
    split
    · simp
    · simp [hb]

/-- Witness for C1 at the accumulator reached from the selector `[3]`. -/
theorem compaction_three_way_witness :
    finishAcc ⟨[3], [], []⟩ = RowMapping.array [3] :=
  (compaction_three_way 10 false [Elem.int 3] ⟨[3], [], []⟩ rfl).1 rfl

/-- Claim C2 (refuted, code bug): processing `[slice(0, 5, 1), 3]` over 10
rows is accepted, but after the trailing scalar the accumulators are
`bases = [0, 3]`, `counts = [5]`, `strides = [1]`: the length of `counts` is
1, which is neither 0 nor the length of `bases` (2), and the compaction then
emits a `SliceList` whose three lists are not parallel.  The backfill of
lines 338-340 of `dt.py` runs only when a later element with `count > 1`
arrives, so trailing scalars are never padded. -/
theorem alignment_invariant_violated :
    processElems 10 false [Elem.slice (Bound.int 0) (Bound.int 5) (Bound.int 1), Elem.int 3] 0
      Acc.init = .ok ⟨[0, 3], [5], [1]⟩ ∧
    ¬((Acc.mk [0, 3] [5] [1]).counts.length = 0 ∨
      (Acc.mk [0, 3] [5] [1]).counts.length = (Acc.mk [0, 3] [5] [1]).bases.length) ∧
    collectionSelector 10 false [Elem.slice (Bound.int 0) (Bound.int 5) (Bound.int 1), Elem.int 3]
      = .ok (.sliceList [0, 3] [5] [1]) :=
  ⟨rfl, by decide, rfl⟩

/-- Claim C3 (refuted): normalizing `[range(9, -1, -1)]` over 10 rows is not
rejected — every produced index 9, 8, ..., 0 lies inside the valid region, so
it succeeds, with the same result as the reversed slice. -/
theorem range_reversal_accepted :
    rows_selector 10 (.list [Elem.range 9 (-1) (-1)]) false = .ok (.slice 9 10 (-1)) := rfl

/-- Claim C3 (amended): over 10 rows both `[slice(None, None, -1)]` and
`[range(9, -1, -1)]` normalize to `Slice(9, 10, -1)`; a range is rejected
only when a produced index falls outside the valid region, with an
invalid-value error carrying the offending range and the row count (e.g.
`range(9, 11)`); the slice/range asymmetry on negative bounds shows at the
triple `(9, -1, -1)`, where the slice selects zero rows but the range selects
all rows reversed. -/
theorem slice_range_reversal :
    rows_selector 10 (.list [Elem.slice Bound.none Bound.none (Bound.int (-1))]) false
      = .ok (.slice 9 10 (-1)) ∧
    rows_selector 10 (.list [Elem.range 9 (-1) (-1)]) false = .ok (.slice 9 10 (-1)) ∧
    rows_selector 10 (.list [Elem.range 9 11 1]) false
      = .error (.invalidRange (Elem.range 9 11 1) 10) ∧
    (DtError.invalidRange (Elem.range 9 11 1) 10).kind = .valueError ∧
    rows_selector 10 (.list [Elem.slice (Bound.int 9) (Bound.int (-1)) (Bound.int (-1))]) false
      = .ok (.array []) :=
  ⟨rfl, rfl, rfl, rfl, rfl⟩

/-- Claim C4: `[3, slice(0, 5, 1)]` over 10 rows backfills the scalar's
count and stride to 1 before appending the slice triple, producing
`SliceList([3, 0], [1, 5], [1, 1])`. -/
theorem scalar_slice_backfill :
    rows_selector 10 (.list [Elem.int 3, Elem.slice (Bound.int 0) (Bound.int 5) (Bound.int 1)])
      false = .ok (.sliceList [3, 0] [1, 5] [1, 1]) := rfl

/-- Claim C5: for every `nrows` and integer `i`, normalizing the one-element
list `[i]` yields `Array [i]` when `0 ≤ i < nrows` and `Array [i + nrows]`
when `-nrows ≤ i < 0`; outside that range it fails with the invalid-value
error of line 311 of `dt.py`, which carries the row count and the offending
index. -/
theorem single_int_selector (nrows : Nat) (i : Int) :
    (-(nrows : Int) ≤ i → i < (nrows : Int) →
      rows_selector nrows (.list [Elem.int i]) false
        = .ok (.array [if i < 0 then i + nrows else i])) ∧
    (i < -(nrows : Int) ∨ (nrows : Int) ≤ i →
      rows_selector nrows (.list [Elem.int i]) false
        = .error (.rowOutOfRange nrows i) ∧
      (DtError.rowOutOfRange nrows i).kind = .valueError) := by
  constructor
  · intro h1 h2
    have hc : ¬(i < -(nrows : Int) ∨ (nrows : Int) ≤ i) := by
      push_neg
      exact ⟨h1, h2⟩
    simp only [rows_selector, collectionSelector, processElems_singleton, processElem]
    rw [if_neg hc]
    simp [finishAcc, Acc.init, Except.map]
  · intro h
    refine ⟨?_, rfl⟩
    simp only [rows_selector, collectionSelector, processElems_singleton, processElem]
    rw [if_pos h]
    rfl

/-- Witness for C5: a negative in-range index, nrows = 10, i = -3. -/
theorem single_int_selector_witness :
    rows_selector 10 (.list [Elem.int (-3)]) false = .ok (.array [7]) := by
  have h := (single_int_selector 10 (-3)).1 (by decide) (by decide)
  have h2 : (if (-3 : Int) < 0 then (-3 : Int) + (10 : Nat) else -3) = 7 := by norm_num
  rw [h2] at h
  exact h

/-- Claim C6 (refuted): a slice with a non-integer bound and a non-zero step
is rejected by line 322 of `dt.py` with a `ValueError`-class error, not a
`TypeError`-class one. -/
theorem nonint_bound_counterexample :
    rows_selector 10 (.list [Elem.slice Bound.nonint (Bound.int 5) Bound.none]) false
      = .error (.notIntegerValued (Elem.slice Bound.nonint (Bound.int 5) Bound.none)) ∧
    (DtError.notIntegerValued (Elem.slice Bound.nonint (Bound.int 5) Bound.none)).kind
      = .valueError ∧
    (DtError.notIntegerValued (Elem.slice Bound.nonint (Bound.int 5) Bound.none)).kind
      ≠ .typeError :=
  ⟨rfl, rfl, by decide⟩

/-- Claim C6 (amended): a slice-like element whose step is not zero and one
of whose bounds is neither `None` nor an integer is rejected with the
invalid-value (`ValueError`-class) error of line 322 of `dt.py` naming the
offending element.  Range-like elements cannot carry non-integer bounds in
the host language, so the check can only fire for slices. -/
theorem nonint_bound_rejected (nrows : Nat) (fromGen : Bool) (i : Nat) (acc : Acc)
    (a b c : Bound) (hstep : stepIsZero c = false)
    (hnon : a = Bound.nonint ∨ b = Bound.nonint ∨ c = Bound.nonint) :
    processElem nrows fromGen i acc (.slice a b c)
      = .error (.notIntegerValued (.slice a b c)) ∧
    (DtError.notIntegerValued (Elem.slice a b c)).kind = .valueError := by
  refine ⟨?_, rfl⟩
  rcases hnon with h | h | h <;> subst h <;>
    simp [processElem, hstep, boundIsIntOrNone]

/-- Witness for the amended C6 at a concrete slice with a non-integer stop. -/
theorem nonint_bound_rejected_witness :
    processElem 10 false 0 Acc.init (.slice Bound.none Bound.nonint (Bound.int (-1)))
      = .error (.notIntegerValued (.slice Bound.none Bound.nonint (Bound.int (-1)))) :=
  (nonint_bound_rejected 10 false 0 Acc.init Bound.none Bound.nonint (Bound.int (-1))
    (by decide) (Or.inr (Or.inl rfl))).1

/-- Claim C7 (refuted): a single-column mask table of non-boolean type with
the right number of rows is rejected by line 364 of `dt.py` with a
`TypeError`-class error, not a `ValueError`-class one. -/
theorem mask_type_counterexample :
    rows_selector 10 (.maskTable 1 "int" 10) false = .error (.maskNotBool "int") ∧
    (DtError.maskNotBool "int").kind = .typeError ∧
    (DtError.maskNotBool "int").kind ≠ .valueError :=
  ⟨rfl, rfl, by decide⟩

/-- Claim C7 (amended): a mask selector is checked in order — column count,
column type, row count.  A column count other than one and a row-count
mismatch each raise an invalid-value (`ValueError`-class) error carrying the
actual values found; a non-boolean column type raises an invalid-type
(`TypeError`-class) error carrying the actual type; when all three checks
pass, a mask reference is produced via the engine's mask constructor. -/
theorem mask_selector_checks (nrows ncols mrows : Nat) (t : String) :
    (ncols ≠ 1 →
      rows_selector nrows (.maskTable ncols t mrows) false
        = .error (.maskNcols ncols t mrows) ∧
      (DtError.maskNcols ncols t mrows).kind = .valueError) ∧
    (ncols = 1 → t ≠ "bool" →
      rows_selector nrows (.maskTable ncols t mrows) false = .error (.maskNotBool t) ∧
      (DtError.maskNotBool t).kind = .typeError) ∧
    (ncols = 1 → t = "bool" → mrows ≠ nrows →
      rows_selector nrows (.maskTable ncols t mrows) false
        = .error (.maskNrows mrows nrows) ∧
      (DtError.maskNrows mrows nrows).kind = .valueError) ∧
    (ncols = 1 → t = "bool" → mrows = nrows →
      rows_selector nrows (.maskTable ncols t mrows) false = .ok (.mask ncols t mrows)) := by
  refine ⟨fun h => ⟨?_, rfl⟩, fun h1 h2 => ⟨?_, rfl⟩, fun h1 h2 h3 => ⟨?_, rfl⟩,
    fun h1 h2 h3 => ?_⟩
  · simp only [rows_selector]
    rw [if_pos h]
  · simp only [rows_selector]
    rw [if_neg (fun hn => hn h1), if_pos h2]
  · simp only [rows_selector]
    rw [if_neg (fun hn => hn h1), if_neg (fun hn => hn h2), if_pos h3]
  · simp only [rows_selector]
    rw [if_neg (fun hn => hn h1), if_neg (fun hn => hn h2), if_neg (fun hn => hn h3)]

/-- Witness for the amended C7: a valid boolean mask of matching size. -/
theorem mask_selector_checks_witness :
    rows_selector 10 (.maskTable 1 "bool" 10) false = .ok (.mask 1 "bool" 10) :=
  (mask_selector_checks 10 1 10 "bool").2.2.2 rfl rfl rfl

/-- Claim C8: a callable selector is deferred exactly once — at the outer
call its result is normalized with `nested = true`, and a callable produced
by a callable is rejected at lines 380-382 of `dt.py` with a
`TypeError`-class error carrying the produced value, without the inner
callable being invoked. -/
theorem callable_single_deferral (nrows : Nat) (res r2 : Selector) :
    rows_selector nrows (.callable res) false = rows_selector nrows res true ∧
    rows_selector nrows (.callable (.callable r2)) false
      = .error (.nestedUnexpected (.callable r2)) ∧
    (DtError.nestedUnexpected (.callable r2)).kind = .typeError :=
  ⟨rfl, rfl, rfl⟩

/-- Claim C9: normalization is a deterministic function of the selector and
the row count — two runs with identical input produce structurally identical
output.  The embedding threads no table state: `_rows_selector` reads only
`self._nrows` and the selector's attributes and writes only its local
accumulators. -/
theorem normalization_deterministic (nrows : Nat) (s : Selector) (nested : Bool)
    (r1 r2 : Except DtError RowMapping)
    (h1 : rows_selector nrows s nested = r1) (h2 : rows_selector nrows s nested = r2) :
    r1 = r2 := by
  rw [← h1, ← h2]

/-- Witness for C9 at the ellipsis selector over 7 rows. -/
theorem normalization_deterministic_witness :
    (Except.ok (RowMapping.slice 0 7 1) : Except DtError RowMapping)
      = .ok (.slice 0 7 1) :=
  normalization_deterministic 7 .ellipsis false _ _ rfl rfl

/-- Claim C10: with `rows` left at its default `None`, `__call__` passes
`None` to `_rows_selector`, which recognizes no such kind and fails at line
384 of `dt.py` with the outer-call `TypeError`-class error carrying the
argument; the ellipsis marker, by contrast, yields the identity selection
`Slice(0, nrows, 1)` at line 292. -/
theorem default_rows_rejected (nrows : Nat) :
    rows_selector nrows defaultRows false = .error (.outerUnexpected .none) ∧
    (DtError.outerUnexpected .none).kind = .typeError ∧
    rows_selector nrows .ellipsis false = .ok (.slice 0 nrows 1) :=
  ⟨rfl, rfl, rfl⟩

end DatatableRows
